import Mathlib

/-!
Verification of the holoAnalytics data-preparation pipeline.

Durations and timestamps are pandas `Timedelta` values in the source; we model
them as integer numbers of seconds.  Missing values (`NaN` / `NaT`) are
modelled with `Option`: `none` is a missing value, and any comparison against
a missing value is `false`, matching pandas/NumPy comparison semantics for
`NaN`.
-/

namespace HoloAnalytics

/-! ## Video type classification
Embedding of `holoanalytics/datapreparation/classification/video_types.py`
and `holoanalytics/datapreparation/calculation.py`. -/

/-- Module constant `PREMIERE_COUNTDOWN = pd.Timedelta('00:02:00')`, in seconds. -/
def PREMIERE_COUNTDOWN : Int := 120

/-- Module constant `BOUNDS = pd.Timedelta('00:00:15')`, in seconds. -/
def BOUNDS : Int := 15

/-- Module constant `PREMIERE_CUTOFF = pd.Timedelta('01:00:01')`, in seconds. -/
def PREMIERE_CUTOFF : Int := 3601

/-- Module constant `LIVE_STREAM_CUTOFF = pd.Timedelta('00:05:00')`, in seconds. -/
def LIVE_STREAM_CUTOFF : Int := 300

/-- `calculation.live_broadcast_duration`: the per-row value
`actual_end_time - actual_start_time`; the result is missing (`NaN`) when
either timestamp is missing. -/
def live_broadcast_duration (actualStartTime actualEndTime : Option Int) : Option Int :=
  match actualStartTime, actualEndTime with
  | some s, some e => some (e - s)
  | _, _ => none

/-- The `np.where` condition of `_classify_live_broadcast`:
`(PREMIERE_COUNTDOWN - BOUNDS) < difference < (PREMIERE_COUNTDOWN + BOUNDS)`.
A missing `difference` (NaN) compares `false` on both sides. -/
def premiere_window (difference : Option Int) : Bool :=
  match difference with
  | some d => decide (PREMIERE_COUNTDOWN - BOUNDS < d) && decide (d < PREMIERE_COUNTDOWN + BOUNDS)
  | none => false

/-- Per-row embedding of `_classify_live_broadcast`: the primary
`np.where` window rule followed by the two `.loc` label fixes, in source
order (Premiere with `duration >= PREMIERE_CUTOFF` becomes Live Stream,
then Live Stream with `duration <= LIVE_STREAM_CUTOFF` and a non-missing
`live_broadcast_duration` becomes Premiere). -/
def classify_live_broadcast (duration : Int) (lbDuration : Option Int) : String :=
  let difference := lbDuration.map (fun lb => lb - duration)
  let primary := if premiere_window difference then "Premiere" else "Live Stream"
  let fixed1 := if primary = "Premiere" ∧ PREMIERE_CUTOFF ≤ duration then "Live Stream" else primary
  if fixed1 = "Live Stream" ∧ duration ≤ LIVE_STREAM_CUTOFF ∧ lbDuration.isSome then
    "Premiere"
  else
    fixed1

/-- `_check_response_code`: status 200 means Short, status 303 means Normal,
any other status yields the `None` sentinel (modelled as `none`). -/
def check_response_code (statusCode : Nat) : Option String :=
  if statusCode = 200 then some "Short"
  else if statusCode = 303 then some "Normal"
  else none

/-- `check_video_duration`: true when the duration lies between the minimum
and the (optional) maximum length, in seconds. -/
def check_video_duration (duration minLength : Int) (maxLength : Option Int) : Bool :=
  match maxLength with
  | none => decide (minLength ≤ duration)
  | some m => decide (minLength ≤ duration) && decide (duration ≤ m)

/-- `_check_short_long`: a video that is not short enough is Normal without
consulting the probe; otherwise the classification is the probe's result.
The HTTP probe of `_check_response_code` is modelled as a pure function
`probe` from video id to status code. -/
def check_short_long (probe : String → Nat) (videoId : String) (shortVideo : Bool) :
    Option String :=
  if shortVideo = false then some "Normal" else check_response_code (probe videoId)

/-- Per-row embedding of `_classify_non_live_broadcast`:
`short_video = check_video_duration(duration, max_length='00:01:00')`,
then `_check_short_long`. -/
def classify_non_live_broadcast (probe : String → Nat) (videoId : String) (duration : Int) :
    Option String :=
  let shortVideo := check_video_duration duration 0 (some 60)
  check_short_long probe videoId shortVideo

theorem live_stream_ne_premiere : ("Live Stream" : String) ≠ "Premiere" := by decide

theorem premiere_ne_live_stream : ("Premiere" : String) ≠ "Live Stream" := by decide

/-- Unfolded form of the classifier when the live broadcast duration is present. -/
theorem classify_live_broadcast_some (duration lb : Int) :
    classify_live_broadcast duration (some lb) =
      (let primary := if premiere_window (some (lb - duration)) then "Premiere" else "Live Stream"
       let fixed1 := if primary = "Premiere" ∧ PREMIERE_CUTOFF ≤ duration then "Live Stream"
                     else primary
       if fixed1 = "Live Stream" ∧ duration ≤ LIVE_STREAM_CUTOFF ∧ True then "Premiere"
       else fixed1) := by
  simp [classify_live_broadcast]

/-- C1 counterexample: a live broadcast with no override applicable
(duration 30 minutes) whose difference is exactly at the lower tolerance
bound `120 - 15 = 105` seconds, or at the upper bound `135` seconds, is
classified Live Stream, not Premiere: the window check is strict on both
sides. -/
theorem c1_boundary_counterexample :
    (1905 : Int) - 1800 = PREMIERE_COUNTDOWN - BOUNDS ∧
    (1935 : Int) - 1800 = PREMIERE_COUNTDOWN + BOUNDS ∧
    classify_live_broadcast 1800 (some 1905) = "Live Stream" ∧
    classify_live_broadcast 1800 (some 1935) = "Live Stream" := by
  decide

/-- C1 (amended): for a live broadcast to which neither duration override
applies, differences of exactly 104, 105, 135 or 136 seconds all classify
Live Stream (both window bounds are exclusive), and differences strictly
between 105 and 135 seconds classify Premiere. -/
theorem c1_tolerance_boundaries (duration lb : Int)
    (hcut : duration < PREMIERE_CUTOFF) (hls : LIVE_STREAM_CUTOFF < duration) :
    ((lb - duration = 104 ∨ lb - duration = 105 ∨ lb - duration = 135 ∨ lb - duration = 136) →
      classify_live_broadcast duration (some lb) = "Live Stream") ∧
    (105 < lb - duration ∧ lb - duration < 135 →
      classify_live_broadcast duration (some lb) = "Premiere") := by
  constructor
  · intro h
    have hw : premiere_window (some (lb - duration)) = false := by
      simp only [premiere_window, PREMIERE_COUNTDOWN, BOUNDS, Bool.and_eq_false_iff,
        decide_eq_false_iff_not, not_lt]
      omega
    have hle : ¬ (duration ≤ LIVE_STREAM_CUTOFF) := by
      simp only [LIVE_STREAM_CUTOFF] at *
      omega
    rw [classify_live_broadcast_some]
    simp [hw, live_stream_ne_premiere, hle]
  · rintro ⟨h1, h2⟩
    have hw : premiere_window (some (lb - duration)) = true := by
      simp only [premiere_window, PREMIERE_COUNTDOWN, BOUNDS, Bool.and_eq_true,
        decide_eq_true_eq]
      omega
    have hcut' : ¬ (PREMIERE_CUTOFF ≤ duration) := by
      simp only [PREMIERE_CUTOFF] at *
      omega
    rw [classify_live_broadcast_some]
    simp [hw, hcut', premiere_ne_live_stream]

theorem c1_tolerance_boundaries_witness :
    classify_live_broadcast 1800 (some 1904) = "Live Stream" ∧
    classify_live_broadcast 1800 (some 1910) = "Premiere" := by
  have h1 := c1_tolerance_boundaries 1800 1904 (by decide) (by decide)
  have h2 := c1_tolerance_boundaries 1800 1910 (by decide) (by decide)
  exact ⟨h1.1 (by decide), h2.2 (by decide)⟩

/-- C3: a live broadcast with nominal duration exactly 1:00:01 (3601 seconds,
the premiere cutoff) is classified Live Stream for every possible live
broadcast duration, including differences inside the Premiere window. -/
theorem c3_premiere_cutoff_override (lbDuration : Option Int) :
    classify_live_broadcast 3601 lbDuration = "Live Stream" := by
  cases lbDuration with
  | none => decide
  | some lb =>
    rw [classify_live_broadcast_some]
    by_cases hw : premiere_window (some (lb - 3601)) = true
    · simp [hw, live_stream_ne_premiere, PREMIERE_CUTOFF, LIVE_STREAM_CUTOFF,
        show ((3601 : Int) ≤ 3601) from le_refl _,
        show ¬ ((3601 : Int) ≤ 300) from by decide]
    · simp [hw, live_stream_ne_premiere, LIVE_STREAM_CUTOFF,
        show ¬ ((3601 : Int) ≤ 300) from by decide]

/-- C4: a live broadcast with nominal duration below the live-stream cutoff
(5 minutes) and a present live broadcast duration (both actual start and end
times given) is classified Premiere, for every value of the difference —
the override takes precedence over the duration-window rule. -/
theorem c4_live_stream_cutoff_override (duration s e : Int)
    (h : duration < LIVE_STREAM_CUTOFF) :
    classify_live_broadcast duration (live_broadcast_duration (some s) (some e)) = "Premiere" := by
  have hle : duration ≤ LIVE_STREAM_CUTOFF := le_of_lt h
  have hcut : ¬ (PREMIERE_CUTOFF ≤ duration) := by
    simp only [PREMIERE_CUTOFF, LIVE_STREAM_CUTOFF] at *
    omega
  simp only [live_broadcast_duration]
  rw [classify_live_broadcast_some]
  by_cases hw : premiere_window (some (e - s - duration)) = true
  · simp [hw, hcut, hle, premiere_ne_live_stream, live_stream_ne_premiere]
  · simp [hw, hle, live_stream_ne_premiere]

theorem c4_live_stream_cutoff_override_witness :
    classify_live_broadcast 60 (live_broadcast_duration (some 0) (some 1000)) = "Premiere" :=
  c4_live_stream_cutoff_override 60 0 1000 (by decide)

/-- C2: for a non-live video of duration at most 60 seconds, the
classification equals the probe result: status 200 gives Short, status 303
gives Normal, and any other status gives the propagated `none` sentinel. -/
theorem c2_short_probe (probe : String → Nat) (videoId : String) (duration : Int)
    (h0 : 0 ≤ duration) (h60 : duration ≤ 60) :
    classify_non_live_broadcast probe videoId duration = check_response_code (probe videoId) ∧
    (probe videoId = 200 → classify_non_live_broadcast probe videoId duration = some "Short") ∧
    (probe videoId = 303 → classify_non_live_broadcast probe videoId duration = some "Normal") ∧
    (probe videoId ≠ 200 → probe videoId ≠ 303 →
      classify_non_live_broadcast probe videoId duration = none) := by
  have hsv : check_video_duration duration 0 (some 60) = true := by
    simp only [check_video_duration, Bool.and_eq_true, decide_eq_true_eq]
    omega
  have hmain : classify_non_live_broadcast probe videoId duration =
      check_response_code (probe videoId) := by
    simp [classify_non_live_broadcast, check_short_long, hsv]
  refine ⟨hmain, ?_, ?_, ?_⟩
  · intro h
    rw [hmain, h]
    decide
  · intro h
    rw [hmain, h]
    decide
  · intro h1 h2
    rw [hmain]
    simp [check_response_code, h1, h2]

theorem c2_short_probe_witness :
    classify_non_live_broadcast (fun _ => 200) "dQw4w9WgXcQ" 30 = some "Short" ∧
    classify_non_live_broadcast (fun _ => 303) "dQw4w9WgXcQ" 30 = some "Normal" ∧
    classify_non_live_broadcast (fun _ => 404) "dQw4w9WgXcQ" 30 = none := by
  have h1 := c2_short_probe (fun _ => 200) "dQw4w9WgXcQ" 30 (by decide) (by decide)
  have h2 := c2_short_probe (fun _ => 303) "dQw4w9WgXcQ" 30 (by decide) (by decide)
  have h3 := c2_short_probe (fun _ => 404) "dQw4w9WgXcQ" 30 (by decide) (by decide)
  exact ⟨h1.2.1 rfl, h2.2.2.1 rfl, h3.2.2.2 (by decide) (by decide)⟩

/-- C5: a non-live video of duration strictly greater than 60 seconds is
classified Normal (and never Short) for every probe function, so the result
does not depend on the HTTP probe. -/
theorem c5_long_non_live_normal (probe : String → Nat) (videoId : String) (duration : Int)
    (h : 60 < duration) :
    classify_non_live_broadcast probe videoId duration = some "Normal" ∧
    classify_non_live_broadcast probe videoId duration ≠ some "Short" := by
  have hsv : check_video_duration duration 0 (some 60) = false := by
    simp only [check_video_duration, Bool.and_eq_false_iff, decide_eq_false_iff_not, not_le]
    omega
  have hmain : classify_non_live_broadcast probe videoId duration = some "Normal" := by
    simp [classify_non_live_broadcast, check_short_long, hsv]
  refine ⟨hmain, ?_⟩
  rw [hmain]
  decide

theorem c5_long_non_live_normal_witness :
    classify_non_live_broadcast (fun _ => 200) "dQw4w9WgXcQ" 61 = some "Normal" :=
  (c5_long_non_live_normal (fun _ => 200) "dQw4w9WgXcQ" 61 (by decide)).1

/-! ## Content type classification
Embedding of `_check_keywords` from
`holoanalytics/datapreparation/classification/content_types.py`.  A keyword
bank is a list of (content type, trigger keywords) pairs in dictionary
insertion order. -/

/-- The inner loop of `_check_keywords`: iterate over the bank's entries and
stop at the first content type whose keyword list contains the extracted
keyword — the loop body executes `break` after the first hit. -/
def first_matching_type (keywordBank : List (String × List String)) (extractedKeyword : String) :
    Option String :=
  match keywordBank with
  | [] => none
  | (contentType, keywords) :: rest =>
    if extractedKeyword ∈ keywords then some contentType
    else first_matching_type rest extractedKeyword

/-- Adding an element to the result set (`content_types.add(content_type)`). -/
def add_content_type (contentTypes : List String) (contentType : String) : List String :=
  if contentType ∈ contentTypes then contentTypes else contentTypes ++ [contentType]

/-- `_check_keywords`: the outer loop over the video's extracted keyword set,
each keyword contributing its first matching content type (if any) to the
result set. -/
def check_keywords (keywordSet : List String) (keywordBank : List (String × List String)) :
    List String :=
  keywordSet.foldl
    (fun contentTypes extractedKeyword =>
      match first_matching_type keywordBank extractedKeyword with
      | some contentType => add_content_type contentTypes contentType
      | none => contentTypes)
    []

theorem mem_add_content_type (contentTypes : List String) (c ct : String) :
    ct ∈ add_content_type contentTypes c ↔ ct ∈ contentTypes ∨ ct = c := by
  simp only [add_content_type]
  split
  · rename_i h
    constructor
    · exact Or.inl
    · rintro (hh | rfl)
      · exact hh
      · exact h
  · simp

theorem check_keywords_foldl_mem (keywordBank : List (String × List String))
    (keywordSet : List String) (acc : List String) (ct : String) :
    ct ∈ keywordSet.foldl
        (fun contentTypes kw =>
          match first_matching_type keywordBank kw with
          | some c => add_content_type contentTypes c
          | none => contentTypes) acc ↔
      ct ∈ acc ∨ ∃ kw ∈ keywordSet, first_matching_type keywordBank kw = some ct := by
  induction keywordSet generalizing acc with
  | nil => simp
  | cons kw rest ih =>
    simp only [List.foldl_cons]
    cases hfm : first_matching_type keywordBank kw with
    | none =>
      rw [ih]
      simp [hfm]
    | some c =>
      rw [ih, mem_add_content_type]
      simp only [List.mem_cons, hfm]
      constructor
      · rintro ((h | rfl) | ⟨kw', hkw', hfm'⟩)
        · exact Or.inl h
        · exact Or.inr ⟨kw, Or.inl rfl, hfm⟩
        · exact Or.inr ⟨kw', Or.inr hkw', hfm'⟩
      · rintro (h | ⟨kw', (rfl | hkw'), hfm'⟩)
        · exact Or.inl (Or.inl h)
        · rw [hfm] at hfm'
          exact Or.inl (Or.inr (Option.some_injective _ hfm').symm)
        · exact Or.inr ⟨kw', hkw', hfm'⟩

/-- C6 counterexample: with the keyword bank `[("A", ["k"]), ("B", ["k"])]`
the single extracted keyword `"k"` occurs in the trigger lists of both
categories, yet only `"A"` is added to the tag set: the inner loop breaks
after the first matching category, so `"B"` is absent. -/
theorem c6_multi_category_counterexample :
    ("k" : String) ∈ [("A", ["k"]), ("B", ["k"])].head!.2 ∧
    ("k" : String) ∈ [("A", ["k"]), ("B", ["k"])].getLast!.2 ∧
    check_keywords ["k"] [("A", ["k"]), ("B", ["k"])] = ["A"] ∧
    "B" ∉ check_keywords ["k"] [("A", ["k"]), ("B", ["k"])] := by
  decide

/-- C6 (amended): a category is added to a video's tag set iff some keyword
of the video's extracted keyword set has that category as its FIRST match in
the bank's iteration order; each keyword contributes at most one category
(the inner loop breaks after the first matching trigger list). -/
theorem c6_first_match_membership (keywordSet : List String)
    (keywordBank : List (String × List String)) (contentType : String) :
    contentType ∈ check_keywords keywordSet keywordBank ↔
      ∃ kw ∈ keywordSet, first_matching_type keywordBank kw = some contentType := by
  rw [check_keywords, check_keywords_foldl_mem]
  simp

/-! ## Video type summary
Embedding of `summarize_video_types` from
`holoanalytics/datapreparation/summary.py`.  The input `video_types` table
is modelled by its `video_type` column, a list of strings; `groupby.count`
yields, for each video type present, the number of rows carrying it. -/

/-- Module constant `VIDEO_TYPES`. -/
def VIDEO_TYPES : List String := ["Normal", "Short", "Live Stream", "Premiere"]

/-- The summary key built per type: `f'{video_type.lower().replace(" ", "_")}_(count)'`. -/
def video_type_count_key (videoType : String) : String :=
  (videoType.toLower.replace " " "_") ++ "_(count)"

/-- `summarize_video_types`: for each of the four fixed video types, emit
the count of rows with that type when the type appears in the grouped
counts, and 0 otherwise. -/
def summarize_video_types (videoTypes : List String) : List (String × Nat) :=
  VIDEO_TYPES.map fun vt =>
    (video_type_count_key vt, if vt ∈ videoTypes then videoTypes.count vt else 0)

/-- C8: every one of the four count fields is present in the summary with
value equal to the number of videos of that type; in particular a type with
zero videos gets an explicit 0, never an absent or null field. -/
theorem c8_counts_present (videoTypes : List String) (vt : String) (h : vt ∈ VIDEO_TYPES) :
    (video_type_count_key vt, videoTypes.count vt) ∈ summarize_video_types videoTypes ∧
    (vt ∉ videoTypes → (video_type_count_key vt, 0) ∈ summarize_video_types videoTypes) := by
  have hval : (if vt ∈ videoTypes then videoTypes.count vt else 0) = videoTypes.count vt := by
    split
    · rfl
    · exact (List.count_eq_zero.mpr (by assumption)).symm
  constructor
  · exact List.mem_map.mpr ⟨vt, h, by rw [hval]⟩
  · intro habs
    refine List.mem_map.mpr ⟨vt, h, ?_⟩
    simp [habs]

theorem c8_counts_present_witness :
    (video_type_count_key "Premiere", 0) ∈
      summarize_video_types ["Normal", "Normal", "Short"] := by
  have h := c8_counts_present ["Normal", "Normal", "Short"] "Premiere" (by decide)
  exact h.2 (by decide)

/-! ## Video id collection
Embedding of `get_video_ids` and `get_video_data` from
`holoanalytics/datacollection/youtube/videos.py`.  An API response for a
playlist-items request is modelled by its list of items; a member's source
data is their name together with the list of responses returned for their
uploads playlist (empty when the playlist has no public videos). -/

structure PlaylistItem where
  videoId : String
  publishedAt : String
deriving DecidableEq

structure MemberSource where
  name : String
  playlistResponses : List (List PlaylistItem)
deriving DecidableEq

/-- `get_video_ids`: when the response list is empty the function prints a
notice and falls through a bare `return`, i.e. returns the `None` sentinel;
otherwise it collects every item's video id and added-to-playlist time. -/
def get_video_ids (playlistResponses : List (List PlaylistItem)) :
    Option (List (String × String)) :=
  if playlistResponses = [] then none
  else some (playlistResponses.flatten.map fun item => (item.videoId, item.publishedAt))

/-- The per-member loop of `get_video_data`: members whose `get_video_ids`
result is the `None` sentinel are skipped with `continue`.  The first
component is the returned `member_video_data` (name, extracted ids); the
second component records the names for which the follow-up `'video'`
resource request (`_video_ids_exist`) was issued. -/
def get_video_data : List MemberSource → List (String × List (String × String)) × List String
  | [] => ([], [])
  | m :: rest =>
    match get_video_ids m.playlistResponses with
    | none => get_video_data rest
    | some ids =>
      let tail := get_video_data rest
      ((m.name, ids) :: tail.1, m.name :: tail.2)

theorem get_video_data_name_absent (members : List MemberSource) (n : String)
    (hall : ∀ m' ∈ members, m'.name = n → m'.playlistResponses = []) :
    n ∉ (get_video_data members).1.map Prod.fst ∧ n ∉ (get_video_data members).2 := by
  induction members with
  | nil => simp [get_video_data]
  | cons x rest ih =>
    have hrest : ∀ m' ∈ rest, m'.name = n → m'.playlistResponses = [] :=
      fun m' hm' => hall m' (List.mem_cons_of_mem _ hm')
    obtain ⟨ih1, ih2⟩ := ih hrest
    cases hx : get_video_ids x.playlistResponses with
    | none =>
      constructor
      · simpa [get_video_data, hx] using ih1
      · simpa [get_video_data, hx] using ih2
    | some ids =>
      have hxn : x.name ≠ n := by
        intro hEq
        have hx0 := hall x (List.mem_cons_self _ _) hEq
        rw [hx0] at hx
        simp [get_video_ids] at hx
      constructor
      · simpa [get_video_data, hx, Ne.symm hxn] using ih1
      · simpa [get_video_data, hx, Ne.symm hxn] using ih2

/-- C9: a member whose playlist-items response set is empty gets the `None`
sentinel from `get_video_ids` (no exception), the collector's loop skips
them, no follow-up video request is made for them, and their name is absent
from the returned per-member data. -/
theorem c9_empty_playlist_skipped (members : List MemberSource) (m : MemberSource)
    (hm : m ∈ members)
    (hall : ∀ m' ∈ members, m'.name = m.name → m'.playlistResponses = []) :
    get_video_ids m.playlistResponses = none ∧
    m.name ∉ (get_video_data members).1.map Prod.fst ∧
    m.name ∉ (get_video_data members).2 := by
  have hempty : m.playlistResponses = [] := hall m hm rfl
  obtain ⟨h1, h2⟩ := get_video_data_name_absent members m.name hall
  refine ⟨?_, h1, h2⟩
  rw [hempty]
  rfl

theorem c9_empty_playlist_skipped_witness :
    get_video_ids (MemberSource.mk "Alice" []).playlistResponses = none ∧
    "Alice" ∉ (get_video_data
      [MemberSource.mk "Alice" [], MemberSource.mk "Bob" [[PlaylistItem.mk "v1" "t1"]]]).1.map
        Prod.fst ∧
    "Alice" ∉ (get_video_data
      [MemberSource.mk "Alice" [], MemberSource.mk "Bob" [[PlaylistItem.mk "v1" "t1"]]]).2 :=
  c9_empty_playlist_skipped
    [MemberSource.mk "Alice" [], MemberSource.mk "Bob" [[PlaylistItem.mk "v1" "t1"]]]
    (MemberSource.mk "Alice" []) (by decide) (by decide)

/-! ## Title keyword extraction
Embedding of `extract_bracketed_words`, `extract_keywords` and
`extract_hashtags` from
`holoanalytics/datapreparation/extraction/video_keywords.py`, together with
the per-title union performed by `_extract_member_keywords`.  Titles are
lists of characters; the regular-expression scans are modelled directly:
`finditer` is a leftmost, non-overlapping scan, and the scanning loops take
the title length as fuel (one character is consumed per step, so the fuel
never runs out on the actual input).  Word characters are modelled as ASCII
alphanumerics and underscore, which agrees with Python for the ASCII and
bracket/punctuation characters appearing in the evaluated titles. -/

/-- The six bracket styles of the alternation in `extract_bracketed_words`,
as (opening, closing) pairs. -/
def bracket_pairs : List (Char × Char) :=
  [('【', '】'), ('≪', '≫'), ('『', '』'), ('「', '」'), ('[', ']'), ('(', ')')]

/-- The character class `brackets` used by the `re.sub` strip. -/
def bracket_chars : List Char :=
  ['【', '】', '≪', '≫', '『', '』', '「', '」', '[', ']', '(', ')']

def is_ascii_letter (ch : Char) : Bool :=
  ('A' ≤ ch && ch ≤ 'Z') || ('a' ≤ ch && ch ≤ 'z')

def is_ascii_digit (ch : Char) : Bool :=
  '0' ≤ ch && ch ≤ '9'

def is_ascii_alnum (ch : Char) : Bool :=
  is_ascii_letter ch || is_ascii_digit ch

def is_word_char (ch : Char) : Bool :=
  is_ascii_alnum ch || ch = '_'

/-- Matching `[^oc]* c` at the current position: the greedy body stops at
the first occurrence of either bracket of the pair and must find the
closer there.  Returns the body and the remaining characters after the
closer. -/
def split_at_closer (o c : Char) : List Char → Option (List Char × List Char)
  | [] => none
  | x :: rest =>
    if x = c then some ([], rest)
    else if x = o then none
    else
      match split_at_closer o c rest with
      | some (body, tail) => some (x :: body, tail)
      | none => none

/-- The `finditer` scan of the six-way bracket alternation: at each
position, a match starts iff the character is an opener whose closer occurs
before any other bracket of the same pair; scanning resumes after a match
(non-overlapping) or at the next character otherwise. -/
def scan_brackets : Nat → List Char → List (List Char)
  | 0, _ => []
  | _, [] => []
  | fuel + 1, ch :: rest =>
    match bracket_pairs.find? (fun p => p.1 = ch) with
    | some (_, c) =>
      match split_at_closer ch c rest with
      | some (body, tail) => (ch :: (body ++ [c])) :: scan_brackets fuel tail
      | none => scan_brackets fuel rest
    | none => scan_brackets fuel rest

/-- `re.sub(brackets, '', match.group())`: remove every bracket character
from a matched span. -/
def strip_bracket_chars (chars : List Char) : List Char :=
  chars.filter fun ch => !bracket_chars.contains ch

/-- `extract_bracketed_words`: the set of bracket-stripped matched spans. -/
def extract_bracketed_words (title : String) : List String :=
  ((scan_brackets title.length title.toList).map
    fun m => String.mk (strip_bracket_chars m)).dedup

/-- Case-insensitive character comparison (`re.IGNORECASE`). -/
def ci_eq (a b : Char) : Bool :=
  a.toLower = b.toLower

def starts_with_ci : List Char → List Char → Bool
  | _, [] => true
  | [], _ :: _ => false
  | a :: restA, b :: restB => ci_eq a b && starts_with_ci restA restB

/-- A `\b` word boundary next to a word-character keyword: satisfied at the
ends of the title and against any non-word neighbour. -/
def boundary_ok (neighbor : Option Char) : Bool :=
  match neighbor with
  | none => true
  | some p => !is_word_char p

/-- `re.search(rf'\b{keyword}\b', title, flags=re.IGNORECASE)` for a keyword
made of word characters with no regex metacharacters: the first position
where the keyword matches case-insensitively between word boundaries.  The
returned `match.group()` is the matched slice OF THE TITLE, so it carries
the title's casing, not the keyword's. -/
def search_keyword : Option Char → List Char → List Char → Option (List Char)
  | _, [], _ => none
  | prev, ch :: rest, kw =>
    if boundary_ok prev && starts_with_ci (ch :: rest) kw &&
        boundary_ok ((ch :: rest).drop kw.length).head? then
      some ((ch :: rest).take kw.length)
    else
      search_keyword (some ch) rest kw

/-- `extract_keywords`: one search per bank keyword, collecting the matched
title slices into a set. -/
def extract_keywords (title : String) (keywords : List String) : List String :=
  (keywords.filterMap fun kw =>
    (search_keyword none title.toList kw.toList).map String.mk).dedup

/-- Backtracking result of `[A-Za-z0-9]*[A-Za-z]+` applied to a maximal
alphanumeric run: the longest prefix of the run that ends in a letter. -/
def hashtag_core (run : List Char) : List Char :=
  (run.reverse.dropWhile fun ch => !is_ascii_letter ch).reverse

/-- The `finditer` scan of `#[A-Za-z0-9]*[A-Za-z]+`: at each `#`, take the
maximal alphanumeric run after it and keep its longest prefix ending in a
letter; a run with no letter is not a match. -/
def scan_hashtags : Nat → List Char → List (List Char)
  | 0, _ => []
  | _, [] => []
  | fuel + 1, ch :: rest =>
    if ch = '#' then
      let run := rest.takeWhile is_ascii_alnum
      let core := hashtag_core run
      if core.isEmpty then scan_hashtags fuel rest
      else (ch :: core) :: scan_hashtags fuel (rest.drop core.length)
    else scan_hashtags fuel rest

/-- `extract_hashtags`: the set of hashtag matches. -/
def extract_hashtags (title : String) : List String :=
  ((scan_hashtags title.length title.toList).map String.mk).dedup

/-- The per-title body of `_extract_member_keywords`: the union of bracketed
words, per-language keyword matches, and hashtags (set union, modelled as
deduplicated concatenation). -/
def extract_title_keywords_row (title : String)
    (engKeywords jpKeywords idKeywords : List String) : List String :=
  (extract_bracketed_words title ++ extract_keywords title engKeywords ++
    extract_keywords title jpKeywords ++ extract_keywords title idKeywords ++
    extract_hashtags title).dedup

/-- C7 counterexample: on the title `"【official mv】Song Name #Debut"` with
English keyword bank entry `"Official"`, the keyword match returns the TITLE
slice `"official"` (matched casing is the title's, lowercase here), so the
claimed element `"Official"` with the bank's casing is NOT in the extracted
keyword set. -/
theorem c7_casing_counterexample :
    "Official" ∉
      extract_title_keywords_row "【official mv】Song Name #Debut" ["Official"] [] [] ∧
    "official" ∈
      extract_title_keywords_row "【official mv】Song Name #Debut" ["Official"] [] [] := by
  decide

/-- C7 (amended): the extracted keyword set of the scenario title is exactly
`{"official mv", "official", "#Debut"}` — bracket content literal-cased with
brackets stripped, the keyword match carrying the casing found in the title
(lowercase `"official"`), and the hashtag taken literally. -/
theorem c7_scenario_extraction :
    extract_title_keywords_row "【official mv】Song Name #Debut" ["Official"] [] [] =
      ["official mv", "official", "#Debut"] := by
  decide

/-! ## Duration filtering
Embedding of `filter_video_duration` from `video_types.py`.  The `duration`
column (after `to_timedelta`) is a list of Timedelta seconds.  Python
evaluates the chained comparison `a <= col <= b` as `(a <= col) and
(col <= b)`; `and` first calls `bool()` on the left operand, and pandas
raises `ValueError` ("truth value of a Series is ambiguous") for any Series
whose length is not exactly 1. -/

inductive PandasError where
  | ambiguousTruthValue
deriving DecidableEq

/-- `bool()` applied to a boolean Series: defined only for a Series of
length exactly one. -/
def series_bool (mask : List Bool) : Except PandasError Bool :=
  match mask with
  | [b] => Except.ok b
  | _ => Except.error PandasError.ambiguousTruthValue

/-- Boolean-mask indexing `dataframe[mask]`, restricted to the duration
column. -/
def boolean_index (values : List Int) (mask : List Bool) : List Int :=
  ((values.zip mask).filter fun p => p.2).map Prod.fst

/-- `filter_video_duration`: with no maximum, a plain `>=` filter; with a
maximum, the chained comparison
`pd.Timedelta(min_length) <= durations <= pd.Timedelta(max_length)`,
whose `and` forces `bool()` on the left comparison Series. -/
def filter_video_duration (durations : List Int) (minLength : Int) (maxLength : Option Int) :
    Except PandasError (List Int) :=
  match maxLength with
  | none => Except.ok (durations.filter fun d => decide (minLength ≤ d))
  | some maxL =>
    let leftMask := durations.map fun d => decide (minLength ≤ d)
    match series_bool leftMask with
    | Except.error e => Except.error e
    | Except.ok b =>
      let mask := if b then durations.map (fun d => decide (d ≤ maxL)) else leftMask
      Except.ok (boolean_index durations mask)

/-- C10: on a duration column with two or more rows, calling
`filter_video_duration` with a non-`None` maximum length always raises the
ambiguous-truth-value error instead of returning a filtered table. -/
theorem c10_chained_comparison_raises (durations : List Int) (minLength maxL : Int)
    (h : 2 ≤ durations.length) :
    filter_video_duration durations minLength (some maxL) =
      Except.error PandasError.ambiguousTruthValue := by
  match durations, h with
  | d1 :: d2 :: rest, _ => rfl

theorem c10_chained_comparison_raises_witness :
    filter_video_duration [30, 90] 0 (some 60) =
      Except.error PandasError.ambiguousTruthValue :=
  c10_chained_comparison_raises [30, 90] 0 60 (by decide)

end HoloAnalytics
